import Mathlib

/-!
Shallow embedding of `smallsh.c` (a small interactive shell) and proofs
about its process-execution and job-control core.

Modelling conventions:
* Machine integers are `Int`/`Nat`; the wait-status word produced by the
  kernel is an `Int` carrying the Linux encoding (exit code in bits 8..15,
  terminating signal in bits 0..6), and the C status macros are transcribed
  as arithmetic on that word (`&` with a low mask is `%` by a power of two).
* C pointers that may be `NULL` are `Option`; the `NULL`-able `char *command`
  of the `Input` struct is `Option String`, and the C's `num_args` field is
  `args.length` (the C stores them together and keeps `args = NULL` exactly
  when `num_args = 0`).
* OS effects (signal installation, `open`/`dup2`, `execvp`, `kill`,
  `waitpid`) are recorded as explicit action values so that theorems can
  speak about which effects a code path performs and in which order.
* The fate of child processes is an oracle parameter: `Nat → ChildOutcome`
  for a blocking wait (which always observes a termination) and
  `Nat → Option ChildOutcome` for the `WNOHANG` sweep (`none` = still
  running).
* Memory management (`free_input`, `free_nodes`, `free_cmd`) has no
  observable effect in this model, with one documented exception inside
  `wait_background` (see its doc comment).
-/

namespace Smallsh

/-! ## Wait-status words and the C status macros -/

/-- Termination fate of a child process: normal exit with a code, or
termination by a signal.  This is what a blocking `waitpid` observes. -/
inductive ChildOutcome where
  | exited (n : Nat)
  | signaled (s : Nat)
deriving DecidableEq

/-- The Linux wait-status word `waitpid` stores into `&exit_code`:
a normal exit `n` is encoded as `(n & 0xff) << 8`, a termination by
signal `s` as `s & 0x7f`. -/
def encodeStatus : ChildOutcome → Int
  | ChildOutcome.exited n => ((n : Int) % 256) * 256
  | ChildOutcome.signaled s => (s : Int) % 128

/-- `WIFEXITED(status)`: `(status & 0x7f) == 0`. -/
def wifexited (status : Int) : Bool :=
  status % 128 == 0

/-- `WIFSIGNALED(status)`: `((signed char)(((status & 0x7f) + 1) >> 1)) > 0`,
which holds exactly when `status & 0x7f` is neither `0` nor `0x7f`. -/
def wifsignaled (status : Int) : Bool :=
  (status % 128 != 0) && (status % 128 != 127)

/-- `WTERMSIG(status)`: `status & 0x7f`. -/
def wtermsig (status : Int) : Int :=
  status % 128

/-- `WEXITSTATUS(status)`: `(status & 0xff00) >> 8`. -/
def wexitstatus (status : Int) : Int :=
  (status % 65536) / 256

/-! ## The `Input` struct and the parser -/

/-- The C `Input` struct: one parsed command request.
`command` is the `NULL`-able `char *command`; the C's `num_args` is
`args.length` here (the C keeps `args = NULL` iff `num_args = 0`). -/
structure Input where
  command : Option String
  args : List String
  input_file : Option String
  output_file : Option String
  is_background : Bool
deriving DecidableEq

/-- `init_input()`: all pointer fields `NULL`, background flag `FALSE`. -/
def init_input : Input :=
  { command := none
    args := []
    input_file := none
    output_file := none
    is_background := false }

/-- The argument-counting loop of `parse_input` (lines 456-466): arguments
are the tokens after the command up to the first `<`, `>` or `&`. -/
def countArgs : List String → Nat
  | [] => 0
  | t :: ts => if t = "<" ∨ t = ">" ∨ t = "&" then 0 else countArgs ts + 1

/-- The argument-copying loop of `parse_input` (lines 477-486): the first
`countArgs` tokens after the command. -/
def takeArgs : List String → List String
  | [] => []
  | t :: ts => if t = "<" ∨ t = ">" ∨ t = "&" then [] else t :: takeArgs ts

/-- The redirection-file scan of `parse_input` (lines 490-507): walk the
tokens from index `num_args` on; on `<` (resp. `>`) record the *next* token
as the input (resp. output) file, the last occurrence winning.  When `<` or
`>` is the final token the C reads one past the token array; that
out-of-bounds read is modelled as `""`. -/
def scanFiles : List String → Option String × Option String → Option String × Option String
  | [], acc => acc
  | t :: ts, acc =>
    if t = "<" then scanFiles ts (some (ts.headD ""), acc.2)
    else if t = ">" then scanFiles ts (acc.1, some (ts.headD ""))
    else scanFiles ts acc

/-- `parse_input()` (lines 415-522) after tokenization: from the list of
space-separated tokens build the `Input`.  Returns `none` for a comment
line (the C returns `FALSE` and leaves the fresh `Input` untouched).
The background flag (lines 468-473) is set iff the final token is `"&"`
*and* the global `foreground_mode` is `FALSE`.  The `$$`-expansion and the
space-count/`strtok` tokenization (lines 422-443) happen upstream of this
function; the token list is its input.  An empty token list cannot reach
the C code (there is always at least a command token). -/
def parse_input (foreground_mode : Bool) (tokens : List String) : Option Input :=
  match tokens with
  | [] => none
  | t0 :: rest =>
    if t0.toList.head? = some '#' then
      none
    else
      let num_args := countArgs rest
      let fo := scanFiles ((t0 :: rest).drop num_args) (none, none)
      some { command := some t0
             args := takeArgs rest
             input_file := fo.1
             output_file := fo.2
             is_background := ((t0 :: rest).getLastD "" == "&") && (foreground_mode == false) }

/-! ## `get_input` -/

/-- Result of one `get_input()` call.  `nullCommandRead` marks the code
path that reaches `strcmp(in->command, "exit")` while `in->command` is
still `NULL` — undefined behavior in the C. -/
inductive GetInputResult where
  | ok (program_status : Bool) (in_ : Input) (parse_status : Bool)
  | nullCommandRead
deriving DecidableEq

/-- Character-level splitting on single spaces, accumulating the current
token in reverse. -/
def tokenizeAux : List Char → List Char → List String
  | [], acc => [String.mk acc.reverse]
  | c :: cs, acc =>
    if c = ' ' then String.mk acc.reverse :: tokenizeAux cs []
    else tokenizeAux cs (c :: acc)

/-- Tokenization of one raw line: the C counts space delimiters and cuts
with `strtok(.., " ")`; for lines in the single-space grammar of the shell
this cuts at every space, one token per space-separated field. -/
def tokenize (l : String) : List String :=
  tokenizeAux l.toList []

/-- `get_input()` (lines 527-568).  `line` is the `getline` result with the
trailing newline already stripped (`none` = end of input).  The C parses
only when `input_length > 1`, i.e. when the stripped line is non-empty;
otherwise `parse_status` keeps its value from the *previous* cycle.  The C
then, whenever `parse_status == TRUE`, calls `strcmp(in->command, "exit")`
— even when no parse happened this cycle and `in->command` is `NULL`. -/
def get_input (foreground_mode : Bool) (parse_status : Bool) (line : Option String) :
    GetInputResult :=
  match line with
  | none => GetInputResult.ok false init_input parse_status
  | some l =>
    let parsed :=
      if l.length > 0 then
        match parse_input foreground_mode (tokenize l) with
        | some i => (i, true)
        | none => (init_input, false)
      else (init_input, parse_status)
    if parsed.2 then
      match parsed.1.command with
      | none => GetInputResult.nullCommandRead
      | some c =>
        if c = "exit" then GetInputResult.ok false parsed.1 parsed.2
        else GetInputResult.ok true parsed.1 parsed.2
    else GetInputResult.ok true parsed.1 parsed.2

/-! ## The child side of `execute_smallsh`: signals, redirection, exec -/

/-- A signal disposition as installed through `sigaction`. -/
inductive Disposition where
  | SIG_IGN
  | SIG_DFL
deriving DecidableEq

/-- The standard stream being rebound by a `dup2`. -/
inductive StreamId where
  | stdin
  | stdout
deriving DecidableEq

/-- Flags and mode of an `open` call. -/
structure OpenFlags where
  rdonly : Bool
  wronly : Bool
  creat : Bool
  trunc : Bool
  mode : Nat
deriving DecidableEq

/-- Input files are opened `O_RDONLY` (line 332); the two-argument `open`
passes no mode. -/
def inputOpenFlags : OpenFlags :=
  { rdonly := true, wronly := false, creat := false, trunc := false, mode := 0 }

/-- Output files are opened `O_WRONLY | O_CREAT | O_TRUNC` with mode `0600`
(line 350). -/
def outputOpenFlags : OpenFlags :=
  { rdonly := false, wronly := true, creat := true, trunc := true, mode := 0o600 }

/-- `/dev/null` for a background stdin is opened `O_RDONLY` (line 343). -/
def inputNullFlags : OpenFlags :=
  { rdonly := true, wronly := false, creat := false, trunc := false, mode := 0 }

/-- `/dev/null` for a background stdout is opened `O_WRONLY` (line 361). -/
def outputNullFlags : OpenFlags :=
  { rdonly := false, wronly := true, creat := false, trunc := false, mode := 0 }

/-- What a stream is rebound to: an explicitly named file, or the
platform's null device. -/
inductive RedirSource where
  | path (p : String) (flags : OpenFlags)
  | nullDevice (flags : OpenFlags)
deriving DecidableEq

/-- One observable action of the child process between `fork` and
`execvp`. -/
inductive ChildAction where
  | setSigtstp (d : Disposition)
  | setSigint (d : Disposition)
  | redirect (s : StreamId) (src : RedirSource)
  | exitErr (code : Int) (msg : String)
  | exec (prog : String) (argv : List String)
deriving DecidableEq

/-- The child branch of `execute_smallsh` (lines 304-377) as the sequence
of actions it performs, given `openOk f` telling whether `open` succeeds on
path `f`.  `child_handler` (lines 275-293) first ignores `SIGTSTP`
unconditionally, then sets `SIGINT` to `SIG_IGN` for a background request
and `SIG_DFL` for a foreground one.  Then, independently for each stream:
an explicit path is opened and `dup2`-ed (on open failure the child prints
a diagnostic and exits with code 1, performing nothing further); with no
path a background request rebinds the stream to `/dev/null` (the C checks
no error on that `open`), and a foreground request touches the stream not
at all.  Finally `execvp` replaces the image with
`argv = [command, arg1, ..]`; the model ends at the `exec` action (the
`execvp`-failure diagnostic happens after the replacement attempt and no
claim depends on it). -/
def child_trace (i : Input) (openOk : String → Bool) : List ChildAction :=
  let prog := i.command.getD ""
  let execPart := [ChildAction.exec prog (prog :: i.args)]
  let outPart :=
    match i.output_file with
    | some f =>
      if openOk f then ChildAction.redirect StreamId.stdout (RedirSource.path f outputOpenFlags) :: execPart
      else [ChildAction.exitErr 1 "Error: output file could not be opened"]
    | none =>
      if i.is_background then
        ChildAction.redirect StreamId.stdout (RedirSource.nullDevice outputNullFlags) :: execPart
      else execPart
  let inPart :=
    match i.input_file with
    | some f =>
      if openOk f then ChildAction.redirect StreamId.stdin (RedirSource.path f inputOpenFlags) :: outPart
      else [ChildAction.exitErr 1 "Error: input file could not be opened"]
    | none =>
      if i.is_background then
        ChildAction.redirect StreamId.stdin (RedirSource.nullDevice inputNullFlags) :: outPart
      else outPart
  ChildAction.setSigtstp Disposition.SIG_IGN ::
  ChildAction.setSigint (if i.is_background then Disposition.SIG_IGN else Disposition.SIG_DFL) ::
  inPart

/-! ## The parent side of `execute_smallsh` -/

/-- What `fork()` returned to the parent: `-1`, or the new child's pid. -/
inductive ForkResult where
  | failed
  | child (pid : Nat)
deriving DecidableEq

/-- The parent-visible result of one `execute_smallsh` call: the returned
`exit_code`, the updated background-pid list, the pid (if any) the parent
blocking-waited on, and the lines it printed. -/
structure ExecResult where
  exit_code : Int
  registry : List Nat
  blocked_on : Option Nat
  messages : List String
deriving DecidableEq

/-- The parent branch of `execute_smallsh` (lines 300-407).  `exit_code`
starts at `0`.  On fork failure it becomes `1` and nothing else happens
(lines 379-381).  For a foreground request the parent blocks in
`waitpid(fork_pid, &exit_code, 0)` on exactly that child and prints
`terminated by signal N` iff the child was signal-terminated (lines
387-394).  For a background request the new pid is pushed onto the head of
the pid list and the start notice is printed, without waiting (lines
395-403); `exit_code` stays `0`.  `oc` is the oracle for the outcome the
blocking wait observes. -/
def execute_smallsh (i : Input) (registry : List Nat) (fork : ForkResult)
    (oc : Nat → ChildOutcome) : ExecResult :=
  match fork with
  | ForkResult.failed =>
    { exit_code := 1, registry := registry, blocked_on := none, messages := [] }
  | ForkResult.child pid =>
    if i.is_background = false then
      let st := encodeStatus (oc pid)
      { exit_code := st
        registry := registry
        blocked_on := some pid
        messages :=
          if wifsignaled st then ["terminated by signal " ++ toString (wtermsig st)]
          else [] }
    else
      { exit_code := 0
        registry := pid :: registry
        blocked_on := none
        messages := ["Background pid is " ++ toString pid ++ "."] }

/-! ## The reaping sweep `wait_background` -/

/-- The completion notice printed by `wait_background` (lines 584-593):
the `WIFEXITED` branch is checked first (together with
`wait_result != -1`, which always holds here because in this model
`waitpid` with `WNOHANG` returns either `0` or the pid: every pid in the
list is a not-yet-reaped child of the shell). -/
def bgReport (p : Nat) (status : Int) : List String :=
  if wifexited status then
    ["background pid " ++ toString p ++ " is done: exit value " ++ toString (wexitstatus status)]
  else if wifsignaled status then
    ["background pid " ++ toString p ++ " is done: terminated by signal " ++ toString (wtermsig status)]
  else []

/-- `wait_background()` (lines 573-630): walk the pid list with `temp`; a
still-running pid (`waitpid` returns `0`) is kept and the walk continues.
For a terminated pid the notice is printed and the node holding that pid
is unlinked, its `next` field is set to `NULL`, and it is freed — and the
node unlinked is the node `temp` itself, since it is the node whose `data`
equals `wait_result`.  The subsequent `temp = temp->next` therefore reads
the freed node, whose `next` field was last written as `NULL`, so the walk
stops right after the first reap; this model reads freed memory as the
value last stored in it.  Returns the remaining list and the printed
notices.  `cs p = none` means pid `p` is still running. -/
def wait_background (cs : Nat → Option ChildOutcome) : List Nat → List Nat × List String
  | [] => ([], [])
  | p :: rest =>
    match cs p with
    | none =>
      let r := wait_background cs rest
      (p :: r.1, r.2)
    | some oc => (rest, bgReport p (encodeStatus oc))

/-! ## The SIGTSTP handler `set_foreground_mode` -/

/-- One operation performed inside the SIGTSTP handler. -/
inductive HandlerOp where
  | fflushStdout
  | writeStdout (msg : String)
  | setForegroundMode (b : Bool)
deriving DecidableEq

/-- Whether an operation is safe at arbitrary interruption points.
POSIX lists `write` among the async-signal-safe functions; a plain store
to a single word is safe; `fflush` operates on a buffered `stdio` stream
and is *not* async-signal-safe. -/
def asyncSignalSafe : HandlerOp → Bool
  | HandlerOp.fflushStdout => false
  | HandlerOp.writeStdout _ => true
  | HandlerOp.setForegroundMode _ => true

/-- The notice written when leaving foreground-only mode (line 245). -/
def exitingNotice : String := "\nExiting foreground-only mode\n: "

/-- The notice written when entering foreground-only mode (line 249). -/
def enteringNotice : String := "\nEntering foreground-only mode (& is now ignored)\n: "

/-- `set_foreground_mode()` (lines 241-253), the SIGTSTP handler, as the
sequence of operations it performs given the current value of the global
`foreground_mode`: first `fflush(stdout)`, then `write` the notice for the
new state, then store the flipped flag. -/
def set_foreground_mode (foreground_mode : Bool) : List HandlerOp :=
  HandlerOp.fflushStdout ::
  (if foreground_mode then
    [HandlerOp.writeStdout exitingNotice, HandlerOp.setForegroundMode false]
  else
    [HandlerOp.writeStdout enteringNotice, HandlerOp.setForegroundMode true])

/-! ## Shutdown: `exit_smallsh` -/

/-- One OS-level action on the shutdown path.  `processExit` models a call
to `exit()`; the constructor exists so that theorems can state that
`exit_smallsh` performs no such call. -/
inductive ShutdownAction where
  | kill (pid : Nat) (sig : Nat)
  | waitBlocking (pid : Nat)
  | processExit (code : Int)
deriving DecidableEq

/-- `exit_smallsh()` (lines 96-106): for every node of the pid list, in
list order, send `SIGKILL` (signal 9) and then blocking-wait on that pid.
The function only walks the list; it never calls `exit()`. -/
def exit_smallsh : List Nat → List ShutdownAction
  | [] => []
  | p :: rest =>
    ShutdownAction.kill p 9 :: ShutdownAction.waitBlocking p :: exit_smallsh rest

/-! ## Dispatcher and main loop -/

/-- The external world as one interpreter cycle sees it: the global
`foreground_mode`, the `$HOME` value, whether `chdir` succeeds on a given
path, what `fork` returns, the outcome a blocking wait observes for a pid,
and the `WNOHANG` view of each background pid (`none` = still running). -/
structure Env where
  foreground_mode : Bool
  home : String
  chdirOk : String → Bool
  fork : ForkResult
  outcome : Nat → ChildOutcome
  waitState : Nat → Option ChildOutcome

/-- The state the top-level loop carries: the Last Status variable
`exit_code` of `main`, the working directory, and the background-pid
list. -/
structure ShellState where
  lastStatus : Int
  cwd : String
  registry : List Nat
deriving DecidableEq

/-- `cd_smallsh()` (lines 115-125): `chdir` to the given path, or to
`$HOME` when no path was given; returns `(chdir result, new cwd if it
changed)` where the result is `0` on success and `-1` on failure. -/
def cd_smallsh (env : Env) (path : Option String) : Int × Option String :=
  let target := path.getD env.home
  if env.chdirOk target then (0, some target) else (-1, none)

/-- `status_smallsh()` (lines 130-144): print the Last Status, checking
`WIFSIGNALED` first, then `WIFEXITED`; a word that is neither (such as the
`-1` a failed `cd` leaves) prints nothing. -/
def status_smallsh (exit_code : Int) : List String :=
  if wifsignaled exit_code then
    ["terminated by signal " ++ toString (wtermsig exit_code)]
  else if wifexited exit_code then
    ["exit value " ++ toString (wexitstatus exit_code)]
  else []

/-- The built-in/external dispatch chain of `main` (lines 659-673),
entered only with `program_status == TRUE` (so never with command
`"exit"`): `cd` runs `cd_smallsh` on `args[0]` (or `NULL`) and *assigns
its result to* `exit_code`; `status` runs `status_smallsh` on the current
`exit_code` and changes nothing; any other name runs `execute_smallsh`
and assigns its result to `exit_code`.  A `NULL` command (comment or
empty line) skips the chain.  Returns the new state and printed lines. -/
def dispatch_cycle (env : Env) (i : Input) (st : ShellState) : ShellState × List String :=
  match i.command with
  | none => (st, [])
  | some c =>
    if c = "cd" then
      let r := cd_smallsh env i.args.head?
      ({ st with lastStatus := r.1, cwd := r.2.getD st.cwd }, [])
    else if c = "status" then
      (st, status_smallsh st.lastStatus)
    else
      let r := execute_smallsh i st.registry env.fork env.outcome
      ({ st with lastStatus := r.exit_code, registry := r.registry }, r.messages)

/-- Result of one iteration of the `do`/`while` loop of `main`. -/
inductive StepResult where
  | next (st : ShellState) (parse_status : Bool) (msgs : List String)
  | shutdown (actions : List ShutdownAction) (returnCode : Int) (msgs : List String)
  | nullCommandRead (msgs : List String)
deriving DecidableEq

/-- One iteration of the loop body of `main` (lines 645-679): first the
reaping sweep `wait_background`, then `get_input`; if `program_status`
came back `FALSE` (the `exit` command, or end of input) run `exit_smallsh`
on the remaining pid list — after which the loop condition fails and
`main` returns `0` (line 687), carried here as the `returnCode` of
`shutdown`.  Otherwise dispatch the parsed request and continue with the
updated state and `parse_status`. -/
def main_step (env : Env) (parse_status : Bool) (line : Option String) (st : ShellState) :
    StepResult :=
  let wr := wait_background env.waitState st.registry
  let st1 : ShellState := { st with registry := wr.1 }
  match get_input env.foreground_mode parse_status line with
  | GetInputResult.nullCommandRead => StepResult.nullCommandRead wr.2
  | GetInputResult.ok program_status i ps' =>
    if program_status then
      match i.command with
      | none => StepResult.next st1 ps' wr.2
      | some _ =>
        let d := dispatch_cycle env i st1
        StepResult.next d.1 ps' (wr.2 ++ d.2)
    else
      StepResult.shutdown (exit_smallsh st1.registry) 0 wr.2

/-! ## Concrete inputs used by witnesses and counterexamples -/

/-- An environment in which `chdir` always fails, `fork` fails, and no
background child has terminated. -/
def env0 : Env :=
  { foreground_mode := false
    home := "/home/u"
    chdirOk := fun _ => false
    fork := ForkResult.failed
    outcome := fun _ => ChildOutcome.exited 0
    waitState := fun _ => none }

/-- A shell state with Last Status `0` and an empty registry. -/
def st0 : ShellState := { lastStatus := 0, cwd := "/start", registry := [] }

/-- The request parsed from the line `cd /nonexistent`. -/
def c5i : Input :=
  { command := some "cd"
    args := ["/nonexistent"]
    input_file := none
    output_file := none
    is_background := false }

/-- The request parsed from the line `status`. -/
def statusInput : Input :=
  { command := some "status"
    args := []
    input_file := none
    output_file := none
    is_background := false }

/-- A background request with no explicit redirection. -/
def w1bg : Input :=
  { command := some "sleep"
    args := ["5"]
    input_file := none
    output_file := none
    is_background := true }

/-- A foreground request with both streams explicitly redirected. -/
def w1fg : Input :=
  { command := some "wc"
    args := []
    input_file := some "in.txt"
    output_file := some "out.txt"
    is_background := false }

/-- An `openOk` oracle under which every `open` succeeds. -/
def allOpen : String → Bool := fun _ => true

/-- The request parsed from the line `ls &` in foreground-only mode. -/
def c3i : Input :=
  { command := some "ls"
    args := []
    input_file := none
    output_file := none
    is_background := false }

/-- A plain foreground request with no redirection. -/
def c4i : Input :=
  { command := some "sleep"
    args := []
    input_file := none
    output_file := none
    is_background := false }

/-! ## Status-macro arithmetic -/

/-- `WIFEXITED` holds on the status word of every normal exit. -/
theorem wifexited_encode_exited (n : Nat) :
    wifexited (encodeStatus (ChildOutcome.exited n)) = true := by
  simp only [wifexited, encodeStatus, beq_iff_eq]
  omega

/-- `WEXITSTATUS` recovers the exit code of a normal exit below 256. -/
theorem wexitstatus_encode_exited (n : Nat) (h : n < 256) :
    wexitstatus (encodeStatus (ChildOutcome.exited n)) = (n : Int) := by
  simp only [wexitstatus, encodeStatus]
  omega

/-- `WIFSIGNALED` never holds on the status word of a normal exit. -/
theorem wifsignaled_encode_exited (n : Nat) :
    wifsignaled (encodeStatus (ChildOutcome.exited n)) = false := by
  have h : ((n : Int) % 256 * 256) % 128 = 0 := by omega
  simp only [wifsignaled, encodeStatus, h]
  decide

/-- `WIFSIGNALED` holds on the status word of a termination by any real
signal number (`0 < s < 127`). -/
theorem wifsignaled_encode_signaled (s : Nat) (h1 : 0 < s) (h2 : s < 127) :
    wifsignaled (encodeStatus (ChildOutcome.signaled s)) = true := by
  have h : (s : Int) % 128 = (s : Int) := by omega
  simp only [wifsignaled, encodeStatus, h, Bool.and_eq_true, bne_iff_ne, ne_eq]
  omega

/-- `WTERMSIG` recovers the signal number of a signal termination. -/
theorem wtermsig_encode_signaled (s : Nat) (h2 : s < 127) :
    wtermsig (encodeStatus (ChildOutcome.signaled s)) = (s : Int) := by
  simp only [wtermsig, encodeStatus]
  omega

/-- Rendering a natural number through `Int` changes nothing. -/
theorem toString_intOfNat (n : Nat) : toString ((n : Nat) : Int) = toString n := rfl

/-- The background flag produced by `parse_input` is the conjunction of
"the final token is `&`" and "foreground-only mode is off". -/
theorem parse_input_is_background (fg : Bool) (tokens : List String) (i : Input)
    (h : parse_input fg tokens = some i) :
    i.is_background = ((tokens.getLastD "" == "&") && (fg == false)) := by
  match tokens with
  | [] => simp [parse_input] at h
  | t0 :: rest =>
    simp only [parse_input] at h
    split at h
    · exact absurd h (by simp)
    · have h2 := Option.some.inj h
      subst h2
      rfl

/-! ## The claims -/

/-- C1: for every external-command request executed by the Execution
Engine, evaluated per stream in the child: a background request with no
explicit path rebinds the stream to the null device; a foreground request
with no explicit path performs no rebinding at all (the stream stays bound
to the interpreter's streams); an explicit path is opened — read-only for
input, write-only with create/truncate and mode 0600 for output — and the
stream is rebound to it.  The stdout conjuncts carry the hypothesis that
the stdin stage did not abort the child, because the C handles an input
open failure by terminating the child image before reaching the output
redirection. -/
theorem C1_redirection_policy (i : Input) (openOk : String → Bool) :
    (i.is_background = true → i.input_file = none →
      ChildAction.redirect StreamId.stdin (RedirSource.nullDevice inputNullFlags)
        ∈ child_trace i openOk)
    ∧ (i.is_background = true → i.output_file = none →
      (∀ g, i.input_file = some g → openOk g = true) →
      ChildAction.redirect StreamId.stdout (RedirSource.nullDevice outputNullFlags)
        ∈ child_trace i openOk)
    ∧ (i.is_background = false → i.input_file = none →
      ∀ src, ChildAction.redirect StreamId.stdin src ∉ child_trace i openOk)
    ∧ (i.is_background = false → i.output_file = none →
      ∀ src, ChildAction.redirect StreamId.stdout src ∉ child_trace i openOk)
    ∧ (∀ f, i.input_file = some f → openOk f = true →
      ChildAction.redirect StreamId.stdin (RedirSource.path f inputOpenFlags)
        ∈ child_trace i openOk)
    ∧ (∀ f, i.output_file = some f → openOk f = true →
      (∀ g, i.input_file = some g → openOk g = true) →
      ChildAction.redirect StreamId.stdout (RedirSource.path f outputOpenFlags)
        ∈ child_trace i openOk) := by
  obtain ⟨cmd, args, inf, outf, bg⟩ := i
  refine ⟨?_, ?_, ?_, ?_, ?_, ?_⟩
  · rintro rfl rfl
    simp [child_trace]
  · rintro rfl rfl hguard
    rcases inf with _ | g
    · simp [child_trace]
    · have hg := hguard g rfl
      simp [child_trace, hg]
  · rintro rfl rfl src
    rcases outf with _ | g
    · simp [child_trace]
    · rcases hg : openOk g <;> simp [child_trace, hg]
  · rintro rfl rfl src
    rcases inf with _ | g
    · simp [child_trace]
    · rcases hg : openOk g <;> simp [child_trace, hg]
  · intro f hf hok
    subst hf
    simp [child_trace, hok]
  · intro f hf hok hguard
    subst hf
    rcases inf with _ | g
    · rcases bg <;> simp [child_trace, hok]
    · have hg := hguard g rfl
      simp [child_trace, hg, hok]

/-- Witness for C1 at concrete requests. -/
theorem C1_redirection_policy_witness :
    ChildAction.redirect StreamId.stdin (RedirSource.nullDevice inputNullFlags)
        ∈ child_trace w1bg allOpen
    ∧ ChildAction.redirect StreamId.stdout (RedirSource.nullDevice outputNullFlags)
        ∈ child_trace w1bg allOpen
    ∧ ChildAction.redirect StreamId.stdin (RedirSource.path "in.txt" inputOpenFlags)
        ∈ child_trace w1fg allOpen
    ∧ ChildAction.redirect StreamId.stdout (RedirSource.path "out.txt" outputOpenFlags)
        ∈ child_trace w1fg allOpen := by
  refine ⟨?_, ?_, ?_, ?_⟩
  · exact (C1_redirection_policy w1bg allOpen).1 rfl rfl
  · exact (C1_redirection_policy w1bg allOpen).2.1 rfl rfl (fun g hg => by cases hg)
  · exact (C1_redirection_policy w1fg allOpen).2.2.2.2.1 "in.txt" rfl rfl
  · exact (C1_redirection_policy w1fg allOpen).2.2.2.2.2 "out.txt" rfl rfl (fun g _ => rfl)

/-- C2: the claim asserts that a second reaping sweep right after a first
one (no new background starts in between) reports nothing.  The code
violates this: after unlinking and freeing the node of the first
terminated child the loop reads the freed node's `next` field (set to
`NULL` just before the `free`), so the sweep stops early and a second
terminated child is only discovered — and reported — by the next sweep.
With registry `[1, 2]` and both children already exited with code 0, the
first sweep reports only pid 1 and the second sweep reports pid 2, so the
second sweep's result is not empty. -/
theorem C2_second_sweep_nonempty :
    wait_background (fun _ => some (ChildOutcome.exited 0)) [1, 2]
      = ([2], ["background pid 1 is done: exit value 0"])
    ∧ wait_background (fun _ => some (ChildOutcome.exited 0)) [2]
      = ([], ["background pid 2 is done: exit value 0"])
    ∧ (wait_background (fun _ => some (ChildOutcome.exited 0))
        (wait_background (fun _ => some (ChildOutcome.exited 0)) [1, 2]).1).2 ≠ [] := by
  refine ⟨rfl, rfl, by decide⟩

/-- C3: a request parsed while the Mode Flag is foreground-only never
carries the background flag (a trailing `&` included), so its execution
takes the synchronous path — the parent blocks on exactly the forked
child — and the Background Registry is unchanged whatever `fork`
returned. -/
theorem C3_foreground_only_downgrade (tokens : List String) (i : Input)
    (h : parse_input true tokens = some i)
    (reg : List Nat) (pid : Nat) (oc : Nat → ChildOutcome) :
    i.is_background = false
    ∧ (execute_smallsh i reg (ForkResult.child pid) oc).blocked_on = some pid
    ∧ (∀ fr, (execute_smallsh i reg fr oc).registry = reg) := by
  have hbg : i.is_background = false := by
    rw [parse_input_is_background true tokens i h]
    simp
  refine ⟨hbg, ?_, ?_⟩
  · simp [execute_smallsh, hbg]
  · intro fr
    cases fr <;> simp [execute_smallsh, hbg]

/-- Witness for C3: the line `ls &` parsed in foreground-only mode. -/
theorem C3_foreground_only_downgrade_witness :
    c3i.is_background = false
    ∧ (execute_smallsh c3i [] (ForkResult.child 5)
        (fun _ => ChildOutcome.exited 0)).blocked_on = some 5
    ∧ (∀ fr, (execute_smallsh c3i [] fr (fun _ => ChildOutcome.exited 0)).registry = []) :=
  C3_foreground_only_downgrade (tokenize "ls &") c3i (by decide) [] 5
    (fun _ => ChildOutcome.exited 0)

/-- C4: for a foreground request whose `fork` succeeded, the parent blocks
on exactly that child; the status word it records — which the dispatcher
then stores as the new Last Status — encodes the exit/signal distinction
and the code or signal number, recoverable through the status macros; and
the notice `terminated by signal N` is printed exactly when the child was
signal-terminated, never on a normal exit. -/
theorem C4_foreground_wait_status (i : Input) (reg : List Nat) (pid : Nat)
    (oc : Nat → ChildOutcome) (hfg : i.is_background = false) :
    (execute_smallsh i reg (ForkResult.child pid) oc).blocked_on = some pid
    ∧ (execute_smallsh i reg (ForkResult.child pid) oc).exit_code = encodeStatus (oc pid)
    ∧ (∀ n, oc pid = ChildOutcome.exited n →
        (execute_smallsh i reg (ForkResult.child pid) oc).messages = [])
    ∧ (∀ s, 0 < s → s < 127 → oc pid = ChildOutcome.signaled s →
        (execute_smallsh i reg (ForkResult.child pid) oc).messages
          = ["terminated by signal " ++ toString s])
    ∧ (∀ n, n < 256 → oc pid = ChildOutcome.exited n →
        wifexited (encodeStatus (oc pid)) = true
          ∧ wexitstatus (encodeStatus (oc pid)) = (n : Int))
    ∧ (∀ s, 0 < s → s < 127 → oc pid = ChildOutcome.signaled s →
        wifsignaled (encodeStatus (oc pid)) = true
          ∧ wtermsig (encodeStatus (oc pid)) = (s : Int))
    ∧ (∀ fg hm ck ws st c, i.command = some c → c ≠ "cd" → c ≠ "status" →
        (dispatch_cycle ⟨fg, hm, ck, ForkResult.child pid, oc, ws⟩ i st).1.lastStatus
          = encodeStatus (oc pid)) := by
  refine ⟨by simp [execute_smallsh, hfg], by simp [execute_smallsh, hfg],
    ?_, ?_, ?_, ?_, ?_⟩
  · intro n hn
    simp [execute_smallsh, hfg, hn, wifsignaled_encode_exited]
  · intro s h1 h2 hs
    simp [execute_smallsh, hfg, hs, wifsignaled_encode_signaled s h1 h2,
      wtermsig_encode_signaled s h2, toString_intOfNat]
  · intro n h hn
    rw [hn]
    exact ⟨wifexited_encode_exited n, wexitstatus_encode_exited n h⟩
  · intro s h1 h2 hs
    rw [hs]
    exact ⟨wifsignaled_encode_signaled s h1 h2, wtermsig_encode_signaled s h2⟩
  · intro fg hm ck ws st c hc hcd hst
    simp [dispatch_cycle, hc, hcd, hst, execute_smallsh, hfg]

/-- Witness for C4 at a concrete signal-terminated foreground child. -/
theorem C4_foreground_wait_status_witness :
    (execute_smallsh c4i [] (ForkResult.child 5)
        (fun _ => ChildOutcome.signaled 2)).blocked_on = some 5
    ∧ (execute_smallsh c4i [] (ForkResult.child 5)
        (fun _ => ChildOutcome.signaled 2)).messages = ["terminated by signal 2"] := by
  refine ⟨(C4_foreground_wait_status c4i [] 5 (fun _ => ChildOutcome.signaled 2) rfl).1, ?_⟩
  have h := (C4_foreground_wait_status c4i [] 5 (fun _ => ChildOutcome.signaled 2) rfl).2.2.2.1
    2 (by decide) (by decide) rfl
  rw [h]
  decide

/-- C5: the claim asserts that a dispatch cycle running a built-in leaves
Last Status unchanged.  The code violates this for `cd`: `main` assigns
`exit_code = cd_smallsh(..)`.  Counterexample: dispatching
`cd /nonexistent` in an environment where `chdir` fails moves Last Status
from `0` to `-1`. -/
theorem C5_cd_changes_last_status :
    (dispatch_cycle env0 c5i st0).1.lastStatus ≠ st0.lastStatus := by decide

/-- C5 (amended): `status` leaves the whole shell state unchanged, but
`cd` sets Last Status to the result of the directory-change operation
(0 on success, -1 on failure) while leaving the registry unchanged, and
every Execution Engine dispatch sets Last Status to the engine's returned
code. -/
theorem C5_builtin_last_status (env : Env) (i : Input) (st : ShellState) :
    (i.command = some "status" →
      dispatch_cycle env i st = (st, status_smallsh st.lastStatus))
    ∧ (i.command = some "cd" →
        (dispatch_cycle env i st).1.lastStatus = (cd_smallsh env i.args.head?).1
          ∧ (dispatch_cycle env i st).1.registry = st.registry)
    ∧ (∀ c, i.command = some c → c ≠ "cd" → c ≠ "status" →
        (dispatch_cycle env i st).1.lastStatus
          = (execute_smallsh i st.registry env.fork env.outcome).exit_code) := by
  refine ⟨?_, ?_, ?_⟩
  · intro hc
    simp [dispatch_cycle, hc]
  · intro hc
    simp [dispatch_cycle, hc]
  · intro c hc hcd hst
    simp [dispatch_cycle, hc, hcd, hst]

/-- Witness for the amended C5: a `status` dispatch and a failing `cd`
dispatch. -/
theorem C5_builtin_last_status_witness :
    dispatch_cycle env0 statusInput st0 = (st0, status_smallsh st0.lastStatus)
    ∧ (dispatch_cycle env0 c5i st0).1.lastStatus = (cd_smallsh env0 c5i.args.head?).1 :=
  ⟨(C5_builtin_last_status env0 statusInput st0).1 rfl,
   ((C5_builtin_last_status env0 c5i st0).2.1 rfl).1⟩

/-- C6: the claim asserts the SIGTSTP handler flips the Mode Flag, writes
the fixed notice through `write`, and performs nothing that is unsafe at
arbitrary interruption points.  The flip and the `write` hold, but the
handler's first operation is `fflush(stdout)` — a buffered-stdio call that
is not async-signal-safe — contradicting both the claim and the code's own
comment that the function is re-entrant. -/
theorem C6_handler_contains_fflush :
    (HandlerOp.fflushStdout ∈ set_foreground_mode false
      ∧ HandlerOp.fflushStdout ∈ set_foreground_mode true)
    ∧ asyncSignalSafe HandlerOp.fflushStdout = false
    ∧ (HandlerOp.setForegroundMode true ∈ set_foreground_mode false
      ∧ HandlerOp.writeStdout enteringNotice ∈ set_foreground_mode false)
    ∧ (HandlerOp.setForegroundMode false ∈ set_foreground_mode true
      ∧ HandlerOp.writeStdout exitingNotice ∈ set_foreground_mode true) := by decide

/-- C7: the child installs its signal dispositions as the first two
actions after the fork — so before any redirection and before the image
replacement: SIGTSTP is always ignored, regardless of the background flag,
and SIGINT is set to `SIG_DFL` for a foreground request and `SIG_IGN` for
a background one.  When every `open` succeeds the trace does reach the
`exec` of the requested program with argv `[command, args..]`. -/
theorem C7_child_signal_dispositions (i : Input) (openOk : String → Bool) :
    (child_trace i openOk).take 2
      = [ChildAction.setSigtstp Disposition.SIG_IGN,
         ChildAction.setSigint
           (if i.is_background then Disposition.SIG_IGN else Disposition.SIG_DFL)]
    ∧ ChildAction.exec (i.command.getD "") (i.command.getD "" :: i.args)
        ∈ child_trace i (fun _ => true) := by
  constructor
  · rfl
  · obtain ⟨cmd, args, inf, outf, bg⟩ := i
    rcases inf with _ | f <;> rcases outf with _ | g <;> rcases bg <;>
      simp [child_trace]

/-- C8: when `fork` itself fails the Execution Engine returns status 1 and
does nothing else — no blocking wait, no registry entry, no message — and
the dispatcher's only resulting change is Last Status becoming 1. -/
theorem C8_fork_failure (i : Input) (reg : List Nat) (oc : Nat → ChildOutcome) :
    execute_smallsh i reg ForkResult.failed oc
      = { exit_code := 1, registry := reg, blocked_on := none, messages := [] }
    ∧ (∀ fg hm ck ws st c, i.command = some c → c ≠ "cd" → c ≠ "status" →
        dispatch_cycle ⟨fg, hm, ck, ForkResult.failed, oc, ws⟩ i st
          = ({ st with lastStatus := 1 }, [])) := by
  constructor
  · rfl
  · intro fg hm ck ws st c hc hcd hst
    simp [dispatch_cycle, hc, hcd, hst, execute_smallsh]

/-- Witness for C8 at a concrete request and environment. -/
theorem C8_fork_failure_witness :
    execute_smallsh c3i [] ForkResult.failed (fun _ => ChildOutcome.exited 0)
      = { exit_code := 1, registry := [], blocked_on := none, messages := [] }
    ∧ dispatch_cycle ⟨false, "/home/u", fun _ => false, ForkResult.failed,
          fun _ => ChildOutcome.exited 0, fun _ => none⟩ c3i st0
        = ({ st0 with lastStatus := 1 }, []) :=
  ⟨(C8_fork_failure c3i [] (fun _ => ChildOutcome.exited 0)).1,
   (C8_fork_failure c3i st0.registry (fun _ => ChildOutcome.exited 0)).2 false "/home/u"
     (fun _ => false) (fun _ => none) st0 "ls" rfl (by decide) (by decide)⟩

/-- Every pid of the registry receives its `SIGKILL` and its blocking wait
from `exit_smallsh`, in that relative order for each node. -/
theorem mem_exit_smallsh (reg : List Nat) (p : Nat) (hp : p ∈ reg) :
    ShutdownAction.kill p 9 ∈ exit_smallsh reg
      ∧ ShutdownAction.waitBlocking p ∈ exit_smallsh reg := by
  induction reg with
  | nil => simp at hp
  | cons q rest ih =>
    rw [List.mem_cons] at hp
    rcases hp with rfl | hp
    · constructor <;> simp [exit_smallsh]
    · have h := ih hp
      constructor <;> simp [exit_smallsh, h.1, h.2]

/-- `exit_smallsh` never calls `exit()` itself. -/
theorem processExit_not_mem_exit_smallsh (reg : List Nat) (c : Int) :
    ShutdownAction.processExit c ∉ exit_smallsh reg := by
  induction reg with
  | nil => simp [exit_smallsh]
  | cons q rest ih => simp [exit_smallsh, ih]

/-- C9: when the `exit` built-in is requested or input ends, the loop
iteration ends in shutdown: `exit_smallsh` sends `SIGKILL` to every entry
still in the registry and blocking-waits on each, without itself calling
`exit()`, and `main` then leaves the loop and returns 0. -/
theorem C9_exit_drains_and_returns_zero (reg : List Nat) (env : Env) (ps : Bool)
    (st : ShellState) :
    (∀ p, p ∈ reg →
      ShutdownAction.kill p 9 ∈ exit_smallsh reg
        ∧ ShutdownAction.waitBlocking p ∈ exit_smallsh reg)
    ∧ (∀ c, ShutdownAction.processExit c ∉ exit_smallsh reg)
    ∧ main_step env ps (some "exit") st
        = StepResult.shutdown (exit_smallsh (wait_background env.waitState st.registry).1) 0
            (wait_background env.waitState st.registry).2
    ∧ main_step env ps none st
        = StepResult.shutdown (exit_smallsh (wait_background env.waitState st.registry).1) 0
            (wait_background env.waitState st.registry).2 :=
  ⟨fun p hp => mem_exit_smallsh reg p hp,
   fun c => processExit_not_mem_exit_smallsh reg c, rfl, rfl⟩

/-- Witness for C9: a registry holding pid 7, the `exit` line, and a
concrete environment. -/
theorem C9_exit_drains_and_returns_zero_witness :
    (ShutdownAction.kill 7 9 ∈ exit_smallsh [7]
      ∧ ShutdownAction.waitBlocking 7 ∈ exit_smallsh [7])
    ∧ main_step env0 true (some "exit") st0
        = StepResult.shutdown (exit_smallsh (wait_background env0.waitState st0.registry).1) 0
            (wait_background env0.waitState st0.registry).2 :=
  ⟨(C9_exit_drains_and_returns_zero [7] env0 true st0).1 7 (by decide),
   (C9_exit_drains_and_returns_zero [7] env0 true st0).2.2.1⟩

/-- C10: the claim asserts an empty input line is a pure no-op that never
reads the absent command name.  The code violates this: parsing is indeed
skipped, but `parse_status` keeps its value from the previous cycle, and
whenever that stale value is `TRUE` — as on the very first cycle —
`get_input` goes on to evaluate `strcmp(in->command, "exit")` with
`in->command` still `NULL`, reading the absent command name (undefined
behavior).  Only after a comment line (`parse_status == FALSE`) is an
empty line the intended no-op. -/
theorem C10_empty_line_reads_null_command :
    main_step env0 true (some "") st0 = StepResult.nullCommandRead []
    ∧ main_step env0 false (some "") st0 = StepResult.next st0 false [] :=
  ⟨rfl, rfl⟩

end Smallsh
